import Mathlib

/-!
Verification of `skills/managing-skills/scripts/quick_validate.py`.

The script validates a skill directory: it reads `SKILL.md`, extracts the YAML
frontmatter delimited by `---` lines, parses it, and runs an ordered pipeline of
checks, returning a `(is_valid, message)` pair.

Embedding conventions:
* Document text is `List Char` (Python strings are sequences of code points).
* The filesystem is abstracted to `Option (List Char)`: `none` means `SKILL.md`
  does not exist, `some content` is the file's text.
* The external YAML library (`yaml.safe_load`) is abstracted to a parse oracle
  `List Char → Except String Yaml`; `Except.error e` models a raised
  `yaml.YAMLError` with message `e`.  The `Yaml` type mirrors the values
  `safe_load` can produce that the validator inspects.
* The validator itself returns `Except String (Bool × String)`: the `ok` case is
  the Python return value, and the `error` case models a Python exception that
  the function does NOT catch and that therefore escapes to the caller.
-/

/-- A parsed YAML value as produced by `yaml.safe_load`, restricted to the
shapes the validator distinguishes: strings, integers, booleans, null, lists
and mappings.  (Python type names: `str`, `int`, `bool`, `NoneType`, `list`,
`dict`.) -/
inductive Yaml where
  | str : List Char → Yaml
  | int : Int → Yaml
  | bool : Bool → Yaml
  | null : Yaml
  | list : List Yaml → Yaml
  | map : List (Yaml × Yaml) → Yaml

/-- Python `str.isspace` / the character set stripped by `str.strip()`:
tab..carriage-return (9-13), file/group/record/unit separators (28-31), space,
next line (133), no-break space (160), ogham space (5760), the U+2000..U+200A
range, line/paragraph separators (8232, 8233), narrow no-break space (8239),
medium mathematical space (8287) and ideographic space (12288). -/
def pyIsSpace (c : Char) : Bool :=
  (decide (9 ≤ c.toNat) && decide (c.toNat ≤ 13)) ||
  (decide (28 ≤ c.toNat) && decide (c.toNat ≤ 32)) ||
  decide (c.toNat = 133) || decide (c.toNat = 160) || decide (c.toNat = 5760) ||
  (decide (8192 ≤ c.toNat) && decide (c.toNat ≤ 8202)) ||
  decide (c.toNat = 8232) || decide (c.toNat = 8233) || decide (c.toNat = 8239) ||
  decide (c.toNat = 8287) || decide (c.toNat = 12288)

/-- Python `s.strip()`: remove leading and trailing whitespace. -/
def pyStrip (l : List Char) : List Char :=
  ((l.dropWhile pyIsSpace).reverse.dropWhile pyIsSpace).reverse

/-- A character of the class `[a-z0-9-]` from the regex on line 82 of
`quick_validate.py`. -/
def isNameChar (c : Char) : Bool :=
  (decide ('a' ≤ c) && decide (c ≤ 'z')) ||
  (decide ('0' ≤ c) && decide (c ≤ '9')) ||
  decide (c = '-')

/-- Models `re.match(r'^[a-z0-9-]+$', name)` succeeding: one or more characters
of the class over the whole string.  (`name` has been stripped at the call
site, so the `$`-before-final-newline convention of Python regexes cannot
fire.) -/
def matchesHyphenCase (l : List Char) : Bool :=
  decide (l ≠ []) && l.all isNameChar

/-- Python `'--' in name`: the string contains two consecutive hyphens. -/
def hasDoubleDash : List Char → Bool
  | [] => false
  | [_] => false
  | a :: b :: rest => (decide (a = '-') && decide (b = '-')) || hasDoubleDash (b :: rest)

/-- A character that terminates a line for Python `str.splitlines`:
`\n`, `\r`, `\v`, `\f`, the FS/GS/RS separators (28-30), next line (133) and
the line/paragraph separators (8232, 8233). -/
def isLineBreak (c : Char) : Bool :=
  decide (c.toNat = 10) || decide (c.toNat = 13) || decide (c.toNat = 11) ||
  decide (c.toNat = 12) || decide (c.toNat = 28) || decide (c.toNat = 29) ||
  decide (c.toNat = 30) || decide (c.toNat = 133) || decide (c.toNat = 8232) ||
  decide (c.toNat = 8233)

/-- Helper for `pyLines`: `acc` is the reversed prefix of the line currently
being read (empty when no line is pending).  A `\r\n` pair counts as a single
terminator, as in Python. -/
def pyLinesAux : List Char → List Char → List (List Char)
  | acc, [] => if acc = [] then [] else [acc.reverse]
  | acc, '\r' :: '\n' :: rest => acc.reverse :: pyLinesAux [] rest
  | acc, c :: rest =>
    if isLineBreak c then acc.reverse :: pyLinesAux [] rest
    else pyLinesAux (c :: acc) rest

/-- Python `content.splitlines()`. -/
def pyLines (l : List Char) : List (List Char) :=
  pyLinesAux [] l

/-- Python `len(content.splitlines())`, the line count on line 101 of
`quick_validate.py`. -/
def pyLineCount (l : List Char) : Nat :=
  (pyLines l).length

/-- Python `<` on strings: lexicographic comparison by code point. -/
def pyStrLt : List Char → List Char → Bool
  | [], [] => false
  | [], _ :: _ => true
  | _ :: _, [] => false
  | a :: as, b :: bs => if a < b then true else if b < a then false else pyStrLt as bs

/-- Insert into an already sorted list (helper for `pySortStr`). -/
def insertSorted (x : List Char) : List (List Char) → List (List Char)
  | [] => [x]
  | y :: ys => if pyStrLt x y then x :: y :: ys else y :: insertSorted x ys

/-- Python `sorted` on a list of strings (insertion sort with the code-point
order; `sorted` is deterministic so the iteration order of the set it is
applied to does not matter). -/
def pySortStr : List (List Char) → List (List Char)
  | [] => []
  | x :: xs => insertSorted x (pySortStr xs)

/-- Python `', '.join(strings)`. -/
def joinComma : List (List Char) → List Char
  | [] => []
  | [x] => x
  | x :: y :: rest => x ++ ", ".data ++ joinComma (y :: rest)

/-- Python `content.startswith('---')` (line 43): a three-character prefix
test, nothing more. -/
def startsDashes : List Char → Bool
  | a :: b :: c :: _ => decide (a = '-') && decide (b = '-') && decide (c = '-')
  | _ => false

/-- The search part of `re.match(r'^---\n(.*?)\n---', content, re.DOTALL)`
(line 47) after the literal `---\n` has been consumed: with `re.DOTALL` and a
non-greedy group, the regex engine finds the shortest prefix followed by a
newline that is immediately followed by `---`.  Returns the captured group,
or `none` when no `\n---` occurs in the remainder. -/
def scanClose : List Char → Option (List Char)
  | [] => none
  | c :: rest =>
    if c = '\n' ∧ startsDashes rest = true then some []
    else (scanClose rest).map (fun g => c :: g)

/-- `re.match(r'^---\n(.*?)\n---', content, re.DOTALL)` (line 47): the match is
anchored at the start, so the text must begin with `---` followed by a newline;
the captured group is everything up to the first newline that is immediately
followed by `---`. -/
def extractFrontmatter : List Char → Option (List Char)
  | '-' :: '-' :: '-' :: '\n' :: rest => scanClose rest
  | _ => none

/-- Python `type(v).__name__` for the values of `Yaml`. -/
def typeName : Yaml → String
  | Yaml.str _ => "str"
  | Yaml.int _ => "int"
  | Yaml.bool _ => "bool"
  | Yaml.null => "NoneType"
  | Yaml.list _ => "list"
  | Yaml.map _ => "dict"

/-- Is this YAML value the given string?  Models Python `==` between a
frontmatter key and one of the (string) allowed property names. -/
def yamlIsStr (k : Yaml) (s : List Char) : Bool :=
  match k with
  | Yaml.str t => decide (t = s)
  | _ => false

/-- Python `==` between two YAML mapping keys.  `yaml.safe_load` only builds
mappings whose keys are hashable scalars, so comparing the scalar shapes
suffices.  (Python additionally identifies `True` with `1`; that collapse
already happens inside `safe_load` when the dict is built, upstream of this
model, so distinct keys reaching this function are distinct Python values.) -/
def keyEq : Yaml → Yaml → Bool
  | Yaml.str a, Yaml.str b => decide (a = b)
  | Yaml.int a, Yaml.int b => decide (a = b)
  | Yaml.bool a, Yaml.bool b => decide (a = b)
  | Yaml.null, Yaml.null => true
  | _, _ => false

/-- Collapse duplicate keys, as `set(...)` does.  (Keys coming from a real
YAML mapping are already distinct; the result is only ever tested for
emptiness and then sorted, so which duplicate is kept is irrelevant.) -/
def dedupKeys : List Yaml → List Yaml
  | [] => []
  | k :: ks => if ks.any (keyEq k) then dedupKeys ks else k :: dedupKeys ks

/-- `ALLOWED_PROPERTIES = {'name', 'description', 'license', 'allowed-tools',
'metadata'}` (line 21 of `quick_validate.py`). -/
def ALLOWED_PROPERTIES : List (List Char) :=
  ["name".data, "description".data, "license".data, "allowed-tools".data, "metadata".data]

/-- `set(frontmatter.keys()) - ALLOWED_PROPERTIES` (line 62): the distinct
frontmatter keys that are not allowed property names. -/
def unexpectedOf (frontmatter : List (Yaml × Yaml)) : List Yaml :=
  dedupKeys ((frontmatter.map Prod.fst).filter
    (fun k => !(ALLOWED_PROPERTIES.any (fun a => yamlIsStr k a))))

/-- Python `'name' in frontmatter` for a string key. -/
def hasKeyStr (frontmatter : List (Yaml × Yaml)) (s : String) : Bool :=
  (frontmatter.map Prod.fst).any (fun k => yamlIsStr k s.data)

/-- Python `frontmatter.get(s, '')` for a string key: the stored value, or the
empty string when the key is absent. -/
def dictGet (frontmatter : List (Yaml × Yaml)) (s : String) : Yaml :=
  match frontmatter.find? (fun kv => yamlIsStr kv.fst s.data) with
  | some kv => kv.snd
  | none => Yaml.str []

/-- Models `', '.join(sorted(unexpected_keys))` (line 65).  When every key is a
string this is the sorted, comma-joined list.  When any key is not a string,
CPython raises an uncaught `TypeError`: `str.join` requires `str` items (and
`sorted` additionally requires mutually comparable items, but the join alone
already faults on the sorted singleton `[1]`). -/
def formatKeyList (ks : List Yaml) : Except String (List Char) :=
  if ks.all (fun k => match k with | Yaml.str _ => true | _ => false) then
    Except.ok (joinComma (pySortStr (ks.filterMap
      (fun k => match k with | Yaml.str t => some t | _ => none))))
  else
    Except.error "TypeError"

/-- Lines 76-87 of `quick_validate.py`: the `name` checks.  Returns the failure
message, or `none` when the name passes this gate.  The value has already been
fetched with `frontmatter.get('name', '')`. -/
def nameCheck (nameVal : Yaml) : Option String :=
  match nameVal with
  | Yaml.str name0 =>
    let name := pyStrip name0
    if name ≠ [] then
      if matchesHyphenCase name = false then
        some ("Name '" ++ String.mk name ++ "' should be hyphen-case (lowercase, digits, hyphens only)")
      else if name.head? = some '-' ∨ name.getLast? = some '-' ∨ hasDoubleDash name = true then
        some ("Name '" ++ String.mk name ++ "' cannot start/end with hyphen or contain consecutive hyphens")
      else if name.length > 64 then
        some ("Name too long (" ++ toString name.length ++ " chars). Max: 64")
      else none
    else none
  | other => some ("Name must be a string, got " ++ typeName other)

/-- Lines 90-98 of `quick_validate.py`: the `description` checks.  Returns the
failure message, or `none` when the description passes this gate. -/
def descCheck (descVal : Yaml) : Option String :=
  match descVal with
  | Yaml.str description0 =>
    let description := pyStrip description0
    if description ≠ [] then
      if description.contains '<' || description.contains '>' then
        some "Description cannot contain angle brackets (< or >)"
      else if description.length > 1024 then
        some ("Description too long (" ++ toString description.length ++ " chars). Max: 1024")
      else none
    else none
  | other => some ("Description must be a string, got " ++ typeName other)

/-- Lines 61-105 of `quick_validate.py`: the pipeline from the unexpected-key
check onward, once the frontmatter has been parsed into a mapping.  `content`
is the whole document (used by the final line-count check). -/
def validateFm (frontmatter : List (Yaml × Yaml)) (content : List Char) :
    Except String (Bool × String) :=
  if (unexpectedOf frontmatter).isEmpty = false then
    match formatKeyList (unexpectedOf frontmatter) with
    | Except.error e => Except.error e
    | Except.ok s =>
      Except.ok (false, "Unexpected key(s) in frontmatter: " ++ String.mk s ++
        ". Allowed: " ++ String.mk (joinComma (pySortStr ALLOWED_PROPERTIES)))
  else if hasKeyStr frontmatter "name" = false then
    Except.ok (false, "Missing 'name' in frontmatter")
  else if hasKeyStr frontmatter "description" = false then
    Except.ok (false, "Missing 'description' in frontmatter")
  else
    match nameCheck (dictGet frontmatter "name") with
    | some msg => Except.ok (false, msg)
    | none =>
      match descCheck (dictGet frontmatter "description") with
      | some msg => Except.ok (false, msg)
      | none =>
        if pyLineCount content > 500 then
          Except.ok (false, "SKILL.md too long (" ++ toString (pyLineCount content) ++
            " lines). Recommended max: 500")
        else
          Except.ok (true, "Skill is valid! (" ++ toString (pyLineCount content) ++ " lines)")

/-- `validate_skill` (lines 24-105 of `quick_validate.py`).  `parseYaml` is the
`yaml.safe_load` oracle; `skill_md` is the content of `<skill_path>/SKILL.md`,
or `none` when that file does not exist.  An `Except.error` result models a
Python exception escaping the function. -/
def validate_skill (parseYaml : List Char → Except String Yaml)
    (skill_md : Option (List Char)) : Except String (Bool × String) :=
  match skill_md with
  | none => Except.ok (false, "SKILL.md not found")
  | some content =>
    if startsDashes content = false then
      Except.ok (false, "No YAML frontmatter found")
    else
      match extractFrontmatter content with
      | none => Except.ok (false, "Invalid frontmatter format")
      | some frontmatter_text =>
        match parseYaml frontmatter_text with
        | Except.error e => Except.ok (false, "Invalid YAML in frontmatter: " ++ e)
        | Except.ok (Yaml.map frontmatter) => validateFm frontmatter content
        | Except.ok _ => Except.ok (false, "Frontmatter must be a YAML dictionary")

/-- `main` (lines 108-123 of `quick_validate.py`; named `mainEntry` here since
Lean reserves `main` for an executable entry point).  `argv` is `sys.argv`
including the program name; `fs` maps a path argument to the content of
`<path>/SKILL.md` (or `none`).  The result is the list of arguments passed to
`print` (each followed by a newline when printed) together with the process
exit code; an `Except.error` models an exception escaping `validate_skill`. -/
def mainEntry (parseYaml : List Char → Except String Yaml)
    (fs : String → Option (List Char)) (argv : List String) :
    Except String (List String × Nat) :=
  match argv with
  | [_, skill_path] =>
    match validate_skill parseYaml (fs skill_path) with
    | Except.error e => Except.error e
    | Except.ok (valid, message) =>
      if valid then Except.ok (["✓ " ++ message], 0)
      else Except.ok (["✗ " ++ message], 1)
  | _ =>
    Except.ok (["Usage: quick_validate.py <skill_directory>", "\nExample:",
      "  quick_validate.py .claude/skills/my-skill"], 1)

/-- Claim-side predicate, following the spec's words for name validity (claim
C1): after trimming, the name is empty, or it matches `[a-z0-9-]+` over its
entire length, does not start or end with a hyphen, does not contain two
consecutive hyphens, and has trimmed length at most 64. -/
def specNameValid (nm : List Char) : Prop :=
  pyStrip nm = [] ∨
    (pyStrip nm ≠ [] ∧
     (∀ c ∈ pyStrip nm, ('a' ≤ c ∧ c ≤ 'z') ∨ ('0' ≤ c ∧ c ≤ '9') ∨ c = '-') ∧
     (pyStrip nm).head? ≠ some '-' ∧
     (pyStrip nm).getLast? ≠ some '-' ∧
     (¬ ∃ l1 l2, pyStrip nm = l1 ++ '-' :: '-' :: l2) ∧
     (pyStrip nm).length ≤ 64)

/-! ## Helper lemmas -/

theorem string_data_append (s t : String) : (s ++ t).data = s.data ++ t.data := by
  cases s; cases t; rfl

/-- The unexpected-key failure message can never coincide with the
missing-`name` failure message, whatever gets interpolated into it. -/
theorem unexpected_msg_ne (x y : String) :
    "Unexpected key(s) in frontmatter: " ++ x ++ ". Allowed: " ++ y ≠
      "Missing 'name' in frontmatter" := by
  intro h
  have hd := congrArg String.data h
  rw [string_data_append, string_data_append, string_data_append] at hd
  have h1 : "Unexpected key(s) in frontmatter: ".data
      = 'U' :: "nexpected key(s) in frontmatter: ".data := rfl
  have h2 : "Missing 'name' in frontmatter".data
      = 'M' :: "issing 'name' in frontmatter".data := rfl
  rw [h1, h2, List.cons_append, List.cons_append, List.cons_append] at hd
  injection hd with h3 _
  exact absurd h3 (by decide)

theorem startsDashes_iff (l : List Char) :
    startsDashes l = true ↔ ∃ r, l = '-' :: '-' :: '-' :: r := by
  match l with
  | [] => simp [startsDashes]
  | [a] => simp [startsDashes]
  | [a, b] => simp [startsDashes]
  | a :: b :: c :: r =>
    simp only [startsDashes, Bool.and_eq_true, decide_eq_true_eq]
    constructor
    · rintro ⟨⟨ha, hb⟩, hc⟩
      exact ⟨r, by rw [ha, hb, hc]⟩
    · rintro ⟨r', h⟩
      injection h with h1 h
      injection h with h2 h
      injection h with h3 h
      exact ⟨⟨h1, h2⟩, h3⟩

theorem scanClose_isSome_iff (l : List Char) :
    (scanClose l).isSome = true ↔ ∃ l1 l2, l = l1 ++ '\n' :: '-' :: '-' :: '-' :: l2 := by
  induction l with
  | nil =>
    simp only [scanClose, Option.isSome_none, Bool.false_eq_true, false_iff]
    rintro ⟨l1, l2, h⟩
    cases l1 <;> simp_all
  | cons c rest ih =>
    by_cases h : c = '\n' ∧ startsDashes rest = true
    · obtain ⟨r, hr⟩ := (startsDashes_iff rest).mp h.2
      simp only [scanClose, if_pos h, Option.isSome_some, true_iff]
      exact ⟨[], r, by rw [h.1, hr]; rfl⟩
    · have hmap : ((scanClose rest).map (fun g => c :: g)).isSome = (scanClose rest).isSome := by
        cases scanClose rest <;> rfl
      simp only [scanClose, if_neg h]
      rw [hmap, ih]
      constructor
      · rintro ⟨l1, l2, hr⟩
        exact ⟨c :: l1, l2, by rw [hr]; rfl⟩
      · rintro ⟨l1, l2, hr⟩
        cases l1 with
        | nil =>
          injection hr with h1 h2
          exact absurd ⟨h1, by rw [h2]; rfl⟩ h
        | cons x l1' =>
          injection hr with h1 h2
          exact ⟨l1', l2, h2⟩

theorem hasDoubleDash_iff (l : List Char) :
    hasDoubleDash l = true ↔ ∃ l1 l2, l = l1 ++ '-' :: '-' :: l2 := by
  induction l with
  | nil =>
    simp only [hasDoubleDash, Bool.false_eq_true, false_iff]
    rintro ⟨l1, l2, h⟩
    cases l1 <;> simp_all
  | cons a rest ih =>
    cases rest with
    | nil =>
      simp only [hasDoubleDash, Bool.false_eq_true, false_iff]
      rintro ⟨l1, l2, h⟩
      cases l1 with
      | nil => simp_all
      | cons x l1' => cases l1' <;> simp_all
    | cons b rest2 =>
      simp only [hasDoubleDash, Bool.or_eq_true, Bool.and_eq_true, decide_eq_true_eq, ih]
      constructor
      · rintro (⟨ha, hb⟩ | ⟨l1, l2, h⟩)
        · exact ⟨[], rest2, by rw [ha, hb]; rfl⟩
        · exact ⟨a :: l1, l2, by rw [h]; rfl⟩
      · rintro ⟨l1, l2, h⟩
        cases l1 with
        | nil =>
          injection h with h1 h2
          injection h2 with h3 _
          exact Or.inl ⟨h1, h3⟩
        | cons x l1' =>
          injection h with h1 h2
          exact Or.inr ⟨l1', l2, h2⟩

theorem matchesHyphenCase_iff (l : List Char) :
    matchesHyphenCase l = true ↔
      (l ≠ [] ∧ ∀ c ∈ l, ('a' ≤ c ∧ c ≤ 'z') ∨ ('0' ≤ c ∧ c ≤ '9') ∨ c = '-') := by
  simp only [matchesHyphenCase, Bool.and_eq_true, decide_eq_true_eq, List.all_eq_true,
    isNameChar, Bool.or_eq_true, or_assoc]

/-- Once the presence, extraction and parse gates pass with a mapping,
`validate_skill` runs the post-parse pipeline `validateFm`. -/
theorem validate_reaches_fm (parse : List Char → Except String Yaml)
    (content t : List Char) (fm : List (Yaml × Yaml))
    (hs : startsDashes content = true) (he : extractFrontmatter content = some t)
    (hp : parse t = Except.ok (Yaml.map fm)) :
    validate_skill parse (some content) = validateFm fm content := by
  simp [validate_skill, hs, he, hp]

/-! ## Claims -/

/-- C1: for a string-typed `name`, the name-content gate accepts exactly the
names that, after trimming, are empty or match `[a-z0-9-]+` over their entire
length, do not start or end with `-`, contain no `--`, and have trimmed length
at most 64; every other name is rejected at this gate. -/
theorem name_gate_characterization :
    ∀ nm : List Char, nameCheck (Yaml.str nm) = none ↔ specNameValid nm := by
  intro nm
  have hmc := matchesHyphenCase_iff (pyStrip nm)
  have hdd := hasDoubleDash_iff (pyStrip nm)
  by_cases h0 : pyStrip nm = []
  · simp [nameCheck, specNameValid, h0]
  · simp only [nameCheck, specNameValid]
    rw [if_pos h0]
    constructor
    · intro h
      by_cases h1 : matchesHyphenCase (pyStrip nm) = false
      · rw [if_pos h1] at h
        exact absurd h (by simp)
      · rw [if_neg h1] at h
        by_cases h2 : (pyStrip nm).head? = some '-' ∨ (pyStrip nm).getLast? = some '-' ∨
            hasDoubleDash (pyStrip nm) = true
        · rw [if_pos h2] at h
          exact absurd h (by simp)
        · rw [if_neg h2] at h
          by_cases h3 : (pyStrip nm).length > 64
          · rw [if_pos h3] at h
            exact absurd h (by simp)
          · push_neg at h2
            have hall := hmc.mp (by revert h1; cases matchesHyphenCase (pyStrip nm) <;> simp)
            refine Or.inr ⟨h0, hall.2, h2.1, h2.2.1, ?_, by omega⟩
            rintro ⟨l1, l2, hl⟩
            exact h2.2.2 (hdd.mpr ⟨l1, l2, hl⟩)
    · intro h
      rcases h with h | ⟨_, hall, hh, hl, hnd, hlen⟩
      · exact absurd h h0
      · have h1 : matchesHyphenCase (pyStrip nm) = true := hmc.mpr ⟨h0, hall⟩
        rw [if_neg (by simp [h1])]
        rw [if_neg ?_, if_neg (by omega)]
        rintro (hc | hc | hc)
        · exact hh hc
        · exact hl hc
        · exact hnd (hdd.mp hc)

/-- Witness for C1: the name `my-skill` is accepted by the gate and satisfies
the spec-side predicate. -/
theorem name_gate_characterization_witness : specNameValid ("my-skill".data) :=
  (name_gate_characterization ("my-skill".data)).mp rfl

/-- C2 (counterexample to the claim as stated): in
`---\nname: x\n--- junk` no line after the first consists of only `---`, yet
header extraction succeeds — the regex `^---\n(.*?)\n---` only requires a later
line to *begin* with `---`. -/
theorem closing_line_only_counterexample :
    (extractFrontmatter ("---\nname: x\n--- junk".data)).isSome = true
    ∧ ((pyLines ("---\nname: x\n--- junk".data)).tail.all
        (fun ln => decide (ln ≠ "---".data))) = true :=
  ⟨rfl, rfl⟩

/-- C2 (amended): for a document starting with the opening delimiter line,
header extraction succeeds exactly when some later newline is immediately
followed by `---` (i.e. a subsequent line *begins* with `---`); and whenever
the document starts with `---` but extraction fails, validation fails with the
"Invalid frontmatter format" message. -/
theorem extraction_characterization :
    (∀ rest : List Char,
      (extractFrontmatter ('-' :: '-' :: '-' :: '\n' :: rest)).isSome = true ↔
        ∃ l1 l2, rest = l1 ++ '\n' :: '-' :: '-' :: '-' :: l2)
    ∧ ∀ (parse : List Char → Except String Yaml) (content : List Char),
        startsDashes content = true → extractFrontmatter content = none →
        validate_skill parse (some content) = Except.ok (false, "Invalid frontmatter format") := by
  constructor
  · intro rest
    exact scanClose_isSome_iff rest
  · intro parse content hs he
    simp [validate_skill, hs, he]

/-- Witness for C2: extraction succeeds on `---\na\n---` (closing pattern found),
and `---\nnoclose` (no later `---` line) fails with the invalid-format message. -/
theorem extraction_characterization_witness :
    (extractFrontmatter ('-' :: '-' :: '-' :: '\n' :: "a\n---".data)).isSome = true
    ∧ validate_skill (fun _ => Except.ok Yaml.null) (some ("---\nnoclose".data))
        = Except.ok (false, "Invalid frontmatter format") :=
  ⟨(extraction_characterization.1 ("a\n---".data)).mpr ⟨"a".data, [], rfl⟩,
   extraction_characterization.2 (fun _ => Except.ok Yaml.null) ("---\nnoclose".data) rfl rfl⟩

/-- C3 (counterexample to the claim as stated): `----\nx\n---` does not have a
first line consisting of exactly `---`, yet it passes the presence gate (a
prefix test) and fails at header extraction with "Invalid frontmatter format",
not with the no-frontmatter message. -/
theorem presence_gate_counterexample :
    validate_skill (fun _ => Except.ok Yaml.null) (some ("----\nx\n---".data))
      = Except.ok (false, "Invalid frontmatter format")
    ∧ ("Invalid frontmatter format" : String) ≠ "No YAML frontmatter found" :=
  ⟨rfl, by decide⟩

/-- C3 (amended): for every existing document whose text does not begin with
the three-character prefix `---`, validation fails with the no-frontmatter
message, regardless of the rest of the content. -/
theorem presence_gate :
    ∀ (parse : List Char → Except String Yaml) (content : List Char),
      startsDashes content = false →
      validate_skill parse (some content) = Except.ok (false, "No YAML frontmatter found") := by
  intro parse content h
  simp [validate_skill, h]

/-- Witness for C3: a document starting with `hello` fails with the
no-frontmatter message. -/
theorem presence_gate_witness :
    validate_skill (fun _ => Except.ok Yaml.null) (some ("hello".data))
      = Except.ok (false, "No YAML frontmatter found") :=
  presence_gate (fun _ => Except.ok Yaml.null) ("hello".data) rfl

/-- C7: evaluating the validator on a document whose frontmatter is the YAML
mapping with the integer key `1` (file content `---\n1: x\n---\n`, which
`yaml.safe_load` parses to the dict with key `1` and value `"x"`): the
unexpected-key branch runs `', '.join(sorted(unexpected_keys))` on a
non-string key and an uncaught `TypeError` escapes `validate_skill`, so no
`(False, message)` pair is produced. -/
theorem typeerror_escapes :
    validate_skill (fun _ => Except.ok (Yaml.map [(Yaml.int 1, Yaml.str "x".data)]))
      (some ("---\n1: x\n---\n".data)) = Except.error "TypeError" := rfl

/-- C9: a header block that parses to YAML null (e.g. an empty block, as
`yaml.safe_load` returns `None` for it) fails with the "must be a YAML
dictionary" message — the same gate that rejects lists — rather than being
treated as an empty mapping. -/
theorem null_frontmatter_rejected :
    ∀ (parse : List Char → Except String Yaml) (content t : List Char),
      startsDashes content = true → extractFrontmatter content = some t →
      (parse t = Except.ok Yaml.null →
        validate_skill parse (some content)
          = Except.ok (false, "Frontmatter must be a YAML dictionary"))
      ∧ ∀ ys, parse t = Except.ok (Yaml.list ys) →
          validate_skill parse (some content)
            = Except.ok (false, "Frontmatter must be a YAML dictionary") := by
  intro parse content t hs he
  constructor
  · intro hp
    simp [validate_skill, hs, he, hp]
  · intro ys hp
    simp [validate_skill, hs, he, hp]

/-- Witness for C9: the document `---\n\n---` has an empty header block; with
`yaml.safe_load` returning null for it, validation fails with the dictionary
message. -/
theorem null_frontmatter_rejected_witness :
    validate_skill (fun _ => Except.ok Yaml.null) (some ("---\n\n---".data))
      = Except.ok (false, "Frontmatter must be a YAML dictionary") :=
  (null_frontmatter_rejected (fun _ => Except.ok Yaml.null) ("---\n\n---".data) [] rfl rfl).1 rfl

/-- C4 (counterexample to the claim as stated): the parsed mapping with the
single integer key `1` lacks `name` and has a key outside the allowed set, yet
validation does not fail with the unexpected-key message — the attempt to join
the non-string key raises an uncaught `TypeError`. -/
theorem key_gate_counterexample :
    hasKeyStr [(Yaml.int 1, Yaml.str "x".data)] "name" = false
    ∧ unexpectedOf [(Yaml.int 1, Yaml.str "x".data)] ≠ []
    ∧ validateFm [(Yaml.int 1, Yaml.str "x".data)] ("---\n1: x\n---\n".data)
        = Except.error "TypeError" :=
  ⟨rfl, List.cons_ne_nil _ _, rfl⟩

/-- C4 (amended): for a parsed header mapping all of whose keys are strings
that lacks `name` and has at least one key outside the allowed set, validation
fails with the unexpected-key message (the offending keys sorted and joined,
then the allowed set sorted and joined) and not with the missing-name message;
and when there is no unexpected key and `name` is absent, the failure is the
missing-name message even if `description` is absent too, so the key-set gate
precedes the required-field gates and `name` is checked before `description`. -/
theorem key_gate_precedes_required :
    (∀ (parse : List Char → Except String Yaml) (content t : List Char)
        (fm : List (Yaml × Yaml)),
      startsDashes content = true → extractFrontmatter content = some t →
      parse t = Except.ok (Yaml.map fm) →
      hasKeyStr fm "name" = false →
      unexpectedOf fm ≠ [] →
      (unexpectedOf fm).all (fun k => match k with | Yaml.str _ => true | _ => false) = true →
      validate_skill parse (some content)
        = Except.ok (false, "Unexpected key(s) in frontmatter: " ++
            String.mk (joinComma (pySortStr ((unexpectedOf fm).filterMap
              (fun k => match k with | Yaml.str s => some s | _ => none)))) ++
            ". Allowed: " ++ String.mk (joinComma (pySortStr ALLOWED_PROPERTIES)))
      ∧ validate_skill parse (some content) ≠ Except.ok (false, "Missing 'name' in frontmatter"))
    ∧ ∀ (parse : List Char → Except String Yaml) (content t : List Char)
        (fm : List (Yaml × Yaml)),
      startsDashes content = true → extractFrontmatter content = some t →
      parse t = Except.ok (Yaml.map fm) →
      unexpectedOf fm = [] →
      hasKeyStr fm "name" = false →
      validate_skill parse (some content) = Except.ok (false, "Missing 'name' in frontmatter") := by
  constructor
  · intro parse content t fm h1 h2 h3 h4 h5 h6
    have hne : (unexpectedOf fm).isEmpty = false := by
      cases hu : unexpectedOf fm with
      | nil => exact absurd hu h5
      | cons a l => rfl
    have hfk : formatKeyList (unexpectedOf fm)
        = Except.ok (joinComma (pySortStr ((unexpectedOf fm).filterMap
            (fun k => match k with | Yaml.str s => some s | _ => none)))) := by
      unfold formatKeyList
      rw [if_pos h6]
    have heq : validate_skill parse (some content)
        = Except.ok (false, "Unexpected key(s) in frontmatter: " ++
            String.mk (joinComma (pySortStr ((unexpectedOf fm).filterMap
              (fun k => match k with | Yaml.str s => some s | _ => none)))) ++
            ". Allowed: " ++ String.mk (joinComma (pySortStr ALLOWED_PROPERTIES))) := by
      rw [validate_reaches_fm parse content t fm h1 h2 h3]
      unfold validateFm
      rw [if_pos hne, hfk]
    refine ⟨heq, ?_⟩
    rw [heq]
    intro hc
    simp only [Except.ok.injEq, Prod.mk.injEq, true_and] at hc
    exact unexpected_msg_ne _ _ hc
  · intro parse content t fm h1 h2 h3 h4 h5
    rw [validate_reaches_fm parse content t fm h1 h2 h3]
    simp [validateFm, h4, h5]

/-- Witness for C4: the header mapping with sole key `foo` yields the
unexpected-key message; the mapping with sole key `license` (allowed, but no
`name` and no `description`) yields the missing-name message. -/
theorem key_gate_precedes_required_witness :
    validate_skill (fun _ => Except.ok (Yaml.map [(Yaml.str "foo".data, Yaml.str "x".data)]))
      (some ("---\nfoo: x\n---\n".data))
      = Except.ok (false,
          "Unexpected key(s) in frontmatter: foo. Allowed: allowed-tools, description, license, metadata, name")
    ∧ validate_skill (fun _ => Except.ok (Yaml.map [(Yaml.str "license".data, Yaml.str "MIT".data)]))
      (some ("---\nlicense: MIT\n---\n".data))
      = Except.ok (false, "Missing 'name' in frontmatter") := by
  constructor
  · have h := (key_gate_precedes_required.1
      (fun _ => Except.ok (Yaml.map [(Yaml.str "foo".data, Yaml.str "x".data)]))
      ("---\nfoo: x\n---\n".data) ("foo: x".data)
      [(Yaml.str "foo".data, Yaml.str "x".data)]
      rfl rfl rfl rfl (List.cons_ne_nil _ _) rfl).1
    rw [h]
    rfl
  · exact key_gate_precedes_required.2
      (fun _ => Except.ok (Yaml.map [(Yaml.str "license".data, Yaml.str "MIT".data)]))
      ("---\nlicense: MIT\n---\n".data) ("license: MIT".data)
      [(Yaml.str "license".data, Yaml.str "MIT".data)]
      rfl rfl rfl rfl rfl

/-- C5: once every gate up to and including the description checks has passed,
validation fails exactly when the whole document (header plus body) has more
than 500 lines, reporting the actual count and the maximum; with at most 500
lines it succeeds and the success message carries the true line count. -/
theorem size_gate :
    ∀ (parse : List Char → Except String Yaml) (content t : List Char)
      (fm : List (Yaml × Yaml)),
      startsDashes content = true → extractFrontmatter content = some t →
      parse t = Except.ok (Yaml.map fm) →
      unexpectedOf fm = [] →
      hasKeyStr fm "name" = true → hasKeyStr fm "description" = true →
      nameCheck (dictGet fm "name") = none →
      descCheck (dictGet fm "description") = none →
      validate_skill parse (some content) = Except.ok
        (if pyLineCount content > 500
         then (false, "SKILL.md too long (" ++ toString (pyLineCount content) ++
            " lines). Recommended max: 500")
         else (true, "Skill is valid! (" ++ toString (pyLineCount content) ++ " lines)")) := by
  intro parse content t fm h1 h2 h3 h4 h5 h6 h7 h8
  rw [validate_reaches_fm parse content t fm h1 h2 h3]
  simp only [validateFm, h4, h5, h6, h7, h8, List.isEmpty_nil]
  by_cases h : pyLineCount content > 500 <;> simp [h]

/-- Witness for C5: a five-line document with a valid header succeeds and the
message reports five lines. -/
theorem size_gate_witness :
    validate_skill (fun _ => Except.ok (Yaml.map
        [(Yaml.str "name".data, Yaml.str "my-skill".data),
         (Yaml.str "description".data, Yaml.str "desc".data)]))
      (some ("---\nname: my-skill\ndescription: desc\n---\nbody".data))
      = Except.ok (true, "Skill is valid! (5 lines)") := by
  rw [size_gate (fun _ => Except.ok (Yaml.map
        [(Yaml.str "name".data, Yaml.str "my-skill".data),
         (Yaml.str "description".data, Yaml.str "desc".data)]))
      ("---\nname: my-skill\ndescription: desc\n---\nbody".data)
      ("name: my-skill\ndescription: desc".data)
      [(Yaml.str "name".data, Yaml.str "my-skill".data),
       (Yaml.str "description".data, Yaml.str "desc".data)]
      rfl rfl rfl rfl rfl rfl rfl rfl]
  rfl

/-- C6: a string-typed description that is non-empty after trimming and
contains `<` or `>` makes validation fail with the angle-bracket message, with
no hypothesis on its length (the angle-bracket check precedes the length
check); a description that trims to empty skips the content checks. -/
theorem description_bracket_gate :
    (∀ (parse : List Char → Except String Yaml) (content t d : List Char)
        (fm : List (Yaml × Yaml)),
      startsDashes content = true → extractFrontmatter content = some t →
      parse t = Except.ok (Yaml.map fm) →
      unexpectedOf fm = [] →
      hasKeyStr fm "name" = true → hasKeyStr fm "description" = true →
      nameCheck (dictGet fm "name") = none →
      dictGet fm "description" = Yaml.str d →
      pyStrip d ≠ [] →
      ((pyStrip d).contains '<' || (pyStrip d).contains '>') = true →
      validate_skill parse (some content)
        = Except.ok (false, "Description cannot contain angle brackets (< or >)"))
    ∧ ∀ d : List Char, pyStrip d = [] → descCheck (Yaml.str d) = none := by
  constructor
  · intro parse content t d fm h1 h2 h3 h4 h5 h6 h7 h8 h9 h10
    rw [validate_reaches_fm parse content t fm h1 h2 h3]
    have hdc : descCheck (dictGet fm "description")
        = some "Description cannot contain angle brackets (< or >)" := by
      rw [h8]
      simp only [descCheck]
      rw [if_pos h9, if_pos h10]
    simp [validateFm, h4, h5, h6, h7, hdc]
  · intro d hd
    simp [descCheck, hd]

/-- Witness for C6: the description `<b>` (longer checks never reached) fails
with the angle-bracket message, and a whitespace-only description passes the
description gate. -/
theorem description_bracket_gate_witness :
    validate_skill (fun _ => Except.ok (Yaml.map
        [(Yaml.str "name".data, Yaml.str "a".data),
         (Yaml.str "description".data, Yaml.str "<b>".data)]))
      (some ("---\nz\n---".data))
      = Except.ok (false, "Description cannot contain angle brackets (< or >)")
    ∧ descCheck (Yaml.str "   ".data) = none :=
  ⟨description_bracket_gate.1 (fun _ => Except.ok (Yaml.map
        [(Yaml.str "name".data, Yaml.str "a".data),
         (Yaml.str "description".data, Yaml.str "<b>".data)]))
      ("---\nz\n---".data) ("z".data) ("<b>".data)
      [(Yaml.str "name".data, Yaml.str "a".data),
       (Yaml.str "description".data, Yaml.str "<b>".data)]
      rfl rfl rfl rfl rfl rfl rfl rfl (by decide) rfl,
   description_bracket_gate.2 ("   ".data) rfl⟩

/-- C10: a present `name` key whose value is YAML null fails the name-type
gate with the `NoneType` message, while a `name` whose value is the empty
string passes the type gate and skips all name-content checks. -/
theorem null_name_rejected :
    (∀ (parse : List Char → Except String Yaml) (content t : List Char)
        (fm : List (Yaml × Yaml)),
      startsDashes content = true → extractFrontmatter content = some t →
      parse t = Except.ok (Yaml.map fm) →
      unexpectedOf fm = [] →
      hasKeyStr fm "name" = true → hasKeyStr fm "description" = true →
      dictGet fm "name" = Yaml.null →
      validate_skill parse (some content)
        = Except.ok (false, "Name must be a string, got NoneType"))
    ∧ nameCheck (Yaml.str []) = none := by
  constructor
  · intro parse content t fm h1 h2 h3 h4 h5 h6 h7
    rw [validate_reaches_fm parse content t fm h1 h2 h3]
    have hnc : nameCheck (dictGet fm "name")
        = some "Name must be a string, got NoneType" := by
      rw [h7]
      rfl
    simp [validateFm, h4, h5, h6, hnc]
  · rfl

/-- Witness for C10: a header with a bare `name:` (null value) and a valid
description fails with the `NoneType` message. -/
theorem null_name_rejected_witness :
    validate_skill (fun _ => Except.ok (Yaml.map
        [(Yaml.str "name".data, Yaml.null),
         (Yaml.str "description".data, Yaml.str "d".data)]))
      (some ("---\nname:\ndescription: d\n---\n".data))
      = Except.ok (false, "Name must be a string, got NoneType") :=
  null_name_rejected.1 (fun _ => Except.ok (Yaml.map
        [(Yaml.str "name".data, Yaml.null),
         (Yaml.str "description".data, Yaml.str "d".data)]))
    ("---\nname:\ndescription: d\n---\n".data) ("name:\ndescription: d".data)
    [(Yaml.str "name".data, Yaml.null),
     (Yaml.str "description".data, Yaml.str "d".data)]
    rfl rfl rfl rfl rfl rfl rfl

/-- C8: with exactly one positional argument the process exits with code 0
when validation returns valid and 1 when it returns invalid (printing the
marked message); with any other argument count it prints the usage text and
exits 1, independently of the file system and parser, i.e. without
validating. -/
theorem command_exit_codes :
    (∀ (parse : List Char → Except String Yaml) (fs : String → Option (List Char))
        (argv : List String), argv.length ≠ 2 →
      mainEntry parse fs argv
        = Except.ok (["Usage: quick_validate.py <skill_directory>", "\nExample:",
            "  quick_validate.py .claude/skills/my-skill"], 1))
    ∧ ∀ (parse : List Char → Except String Yaml) (fs : String → Option (List Char))
        (prog p : String) (b : Bool) (m : String),
      validate_skill parse (fs p) = Except.ok (b, m) →
      mainEntry parse fs [prog, p]
        = if b then Except.ok (["✓ " ++ m], 0) else Except.ok (["✗ " ++ m], 1) := by
  constructor
  · intro parse fs argv h
    rcases argv with _ | ⟨a, _ | ⟨b, _ | ⟨c, rest⟩⟩⟩
    · rfl
    · rfl
    · exact absurd rfl h
    · rfl
  · intro parse fs prog p b m h
    simp only [mainEntry]
    rw [h]

/-- Witness for C8: the empty argument vector prints usage and exits 1; one
argument naming a directory without `SKILL.md` exits 1 with the marked
message. -/
theorem command_exit_codes_witness :
    mainEntry (fun _ => Except.ok Yaml.null) (fun _ => none) []
      = Except.ok (["Usage: quick_validate.py <skill_directory>", "\nExample:",
          "  quick_validate.py .claude/skills/my-skill"], 1)
    ∧ mainEntry (fun _ => Except.ok Yaml.null) (fun _ => none) ["quick_validate.py", "d"]
      = Except.ok (["✗ SKILL.md not found"], 1) := by
  constructor
  · exact command_exit_codes.1 (fun _ => Except.ok Yaml.null) (fun _ => none) [] (by decide)
  · have h := command_exit_codes.2 (fun _ => Except.ok Yaml.null) (fun _ => none)
      "quick_validate.py" "d" false "SKILL.md not found" rfl
    rw [h]
    rfl
